import Mathlib

/-!
Verification of the DECIDE decision engine (src/app.js) against its
natural-language specification.

The JavaScript core is shallowly embedded:
* string enums (`State`, `Priority`, `Condition`) become Lean `String`
  constants with the source's values;
* the mutable `signals` object becomes a `Signals` record (the spec's
  Signal Store data model) for the rule evaluator and operator actions,
  and a dynamic `JsStore : String → Val` for the chat gate and the
  external-Q&A promotion path, which in the source write object slots
  by dynamic key;
* JS numbers that are used as integers become `Int`/`Nat`;
* the DOM, rendering, timers and timestamps are out of scope (per spec
  §1) and are not modelled; `lastAction` keeps only its `type` tag.
-/

/-- JS primitive values, as compared by `!==` in the source (all values
that flow through the gate are primitives, so `!==` is value equality). -/
inductive Val where
  | vBool (b : Bool)
  | vInt (n : Int)
  | vStr (s : String)
  | vNull
  | vUndefined
deriving DecidableEq, Repr

def State.MONITOR : String := "monitor"
def State.REMOTE : String := "remote"
def State.FIELD : String := "field"
def State.SERVICE : String := "service"

def Priority.LOW : String := "Low"
def Priority.MEDIUM : String := "Medium"
def Priority.HIGH : String := "High"

def Condition.BLOCKED : String := "Blocked"
def Condition.STUCK : String := "Stuck"
def Condition.DEGRADED : String := "Degraded"

/-- The fixed escalation ladder of src/app.js line 36. -/
def ladder : List String := [State.MONITOR, State.REMOTE, State.FIELD, State.SERVICE]

/-- The Signal Store (the `signals` object of src/app.js lines 69-85),
with the types of the spec's §3 data model.  `condition` and
`currentIntervention` are the source's string enums; `lastAction` keeps
only the action-type tag (its timestamp is wall-clock time, display
only). -/
structure Signals where
  condition : String
  timeBlockedMin : Int
  riderOnboard : Bool
  policePresent : Bool
  drivable : Bool
  currentIntervention : String
  attemptCount : Nat
  towEtaMin : Option Int
  riderState : Option String
  remoteAssistFailed : Bool
  lanePartiallyBlocked : Bool
  severityScore : Option Int
  lastAction : Option String
deriving DecidableEq, Repr

/-- The initial `signals` object of src/app.js lines 69-85. -/
def initialSignals : Signals :=
  { condition := Condition.BLOCKED
    timeBlockedMin := 1
    riderOnboard := true
    policePresent := false
    drivable := true
    currentIntervention := "none"
    attemptCount := 0
    towEtaMin := none
    riderState := none
    remoteAssistFailed := false
    lanePartiallyBlocked := false
    severityScore := none
    lastAction := none }

/-- The `cues` label table of src/app.js lines 45-66 (label, question). -/
def cuesTable (state : String) : List (String × String) :=
  if state = State.MONITOR then
    [("Situation Check", "Is this a normal, transient pause?"),
     ("Vehicle Health", "Is the vehicle healthy and drivable?"),
     ("Time Impact", "Has the blockage lasted only briefly?")]
  else if state = State.REMOTE then
    [("Intervention Feasibility", "Can a human-guided action resolve this?"),
     ("Escalation Avoidance", "Can physical dispatch be avoided?"),
     ("Safety Risk", "Is remote intervention safe and appropriate?")]
  else if state = State.FIELD then
    [("Public Impact", "Is it blocking traffic/creating risk?"),
     ("Authority Involvement", "Are police/external responders present?"),
     ("Remote Failure", "Has remote assist been insufficient/inappropriate?")]
  else if state = State.SERVICE then
    [("Repair Need", "Does it require inspection or repair?"),
     ("Redeploy Risk", "Is it unsafe to continue without service?"),
     ("Fleet Status", "Should it be removed from active use?")]
  else []

/-- `cues[state][i][0]` of the source: the i-th label for a state. -/
def cueLabel (state : String) (i : Nat) : String :=
  ((cuesTable state).getD i ("", "")).1

/-- `buildConfidenceCues` of src/app.js lines 152-201. -/
def buildConfidenceCues (state : String) (s : Signals) : List (String × String) :=
  let yes := "Yes"
  let no := "No"
  if state = State.MONITOR then
    let situationCheck :=
      if s.condition = Condition.BLOCKED ∧ s.timeBlockedMin < 5 then yes else "Likely temporary?"
    let vehicleHealth := if s.drivable then yes else no
    let timeImpact := if s.timeBlockedMin < 5 then yes else no
    [(cueLabel state 0, situationCheck), (cueLabel state 1, vehicleHealth),
     (cueLabel state 2, timeImpact)]
  else if state = State.REMOTE then
    let feasible := if s.drivable ∨ s.condition = Condition.BLOCKED then yes else "Unclear"
    let avoidDispatch := if ¬ s.policePresent then yes else "Unlikely"
    let safe := if s.policePresent then "Coordinated" else yes
    [(cueLabel state 0, feasible), (cueLabel state 1, avoidDispatch),
     (cueLabel state 2, safe)]
  else if state = State.FIELD then
    let publicImpact :=
      if s.condition ≠ Condition.DEGRADED ∧ s.timeBlockedMin ≥ 5 then yes
      else if s.policePresent then "Managed" else "Limited"
    let authority := if s.policePresent then yes else no
    let remoteFailure :=
      if s.currentIntervention = State.REMOTE ∧ s.attemptCount ≥ 1 then yes
      else "Not attempted/insufficient"
    [(cueLabel state 0, publicImpact), (cueLabel state 1, authority),
     (cueLabel state 2, remoteFailure)]
  else if state = State.SERVICE then
    let repairNeed := if ¬ s.drivable then yes else "Investigate"
    let redeployRisk := if ¬ s.drivable then yes else "Unknown"
    let fleetStatus := if ¬ s.drivable then "Remove until cleared" else "Keep under watch"
    [(cueLabel state 0, repairNeed), (cueLabel state 1, redeployRisk),
     (cueLabel state 2, fleetStatus)]
  else []

/-- A Recommendation (the object built by `result`, src/app.js line 137). -/
structure Rec where
  state : String
  priority : String
  oneLineWhy : String
  cues : List (String × String)
deriving DecidableEq, Repr

/-- `result` of src/app.js line 136-138.  In the source it reads the
module-global `signals` for the cues (not `evaluate`'s parameter `s`);
that global is the explicit parameter `g` here. -/
def result (state priority why : String) (g : Signals) : Rec :=
  { state := state, priority := priority, oneLineWhy := why
    cues := buildConfidenceCues state g }

/-- The base recommendation of `evaluate` (src/app.js lines 97-118): the
five-rule first-match cascade.  `s` is `evaluate`'s parameter, `g` the
module-global `signals` read by `result` for the cues. -/
def baseRecommendation (s g : Signals) : Rec :=
  if s.condition = Condition.DEGRADED ∧ s.drivable = false then
    result State.SERVICE Priority.HIGH "Not drivable while degraded" g
  else if s.condition = Condition.STUCK ∧ s.policePresent = true then
    result State.FIELD Priority.HIGH "Stuck with police on scene" g
  else if s.condition = Condition.STUCK ∧ s.riderOnboard = true then
    result State.REMOTE Priority.HIGH "Stuck with rider onboard" g
  else if s.condition = Condition.BLOCKED ∧ s.timeBlockedMin ≥ 5 then
    result State.REMOTE Priority.MEDIUM "Blocked ≥5 min" g
  else
    result State.MONITOR Priority.LOW "Transient or minor" g

/-- `evaluate` of src/app.js lines 94-134, with the module-global
`signals` (read by `result` for the cues) as the explicit second
parameter `g`. -/
def evaluateImpl (s g : Signals) : Rec :=
  let baseRec := baseRecommendation s g
  let stillUnresolved :=
    (s.condition = Condition.BLOCKED ∨ s.condition = Condition.STUCK) ∧ s.timeBlockedMin ≥ 5
  if baseRec.state ≠ State.SERVICE ∧ s.currentIntervention = State.REMOTE ∧
      s.attemptCount ≥ 1 ∧ stillUnresolved then
    result State.FIELD Priority.HIGH "Remote assist failed to resolve" g
  else
    baseRec

/-- `evaluate` as it is called in the source: every call site
(`render`, `confirmAction`, `escalateAction`, `handleAsk`,
`cloudChatAnswer`) passes the module-global `signals` itself, so the
parameter and the global coincide. -/
def evaluate (s : Signals) : Rec := evaluateImpl s s

/-- `severityPosition` of src/app.js lines 141-149. -/
def severityPosition (state : String) : Int :=
  if state = State.MONITOR then 10
  else if state = State.REMOTE then 40
  else if state = State.FIELD then 75
  else if state = State.SERVICE then 95
  else 10

/-- JavaScript `Array.prototype.indexOf` (returns -1 when absent). -/
def jsIndexOfAux (x : String) : List String → Int → Int
  | [], _ => -1
  | a :: as, i => if a = x then i else jsIndexOfAux x as (i + 1)

def jsIndexOf (l : List String) (x : String) : Int := jsIndexOfAux x l 0

/-- `confirmAction` of src/app.js lines 409-417 (its `render()` call is
display only). -/
def confirmAction (s : Signals) : Signals :=
  let r := evaluate s
  { s with currentIntervention := r.state
           attemptCount := if r.state = State.REMOTE then s.attemptCount + 1 else s.attemptCount
           lastAction := some "confirm" }

/-- `escalateAction` of src/app.js lines 419-430.  `ladder[nextIdx]` is
in range for every state `evaluate` returns; the `getD` default is never
used. -/
def escalateAction (s : Signals) : Signals :=
  let r := evaluate s
  let idx := jsIndexOf ladder r.state
  let nextIdx := min (idx + 1) ((ladder.length : Int) - 1)
  let escalated := ladder.getD nextIdx.toNat State.MONITOR
  { s with currentIntervention := escalated
           attemptCount := if escalated = State.REMOTE then s.attemptCount + 1 else s.attemptCount
           lastAction := some "escalate" }

/-- `applyOverrideAction` of src/app.js lines 435-444: `chosen` is
whatever string the override select currently holds; the source assigns
it to `currentIntervention` with no validity check, then re-renders. -/
def applyOverrideAction (chosen : String) (s : Signals) : Signals :=
  { s with currentIntervention := chosen
           attemptCount := if chosen = State.REMOTE then s.attemptCount + 1 else s.attemptCount
           lastAction := some "override" }

/-- One scenario preset (the five structured fields each preset sets,
src/app.js lines 447-483). -/
structure ScenarioPreset where
  condition : String
  timeBlockedMin : Int
  riderOnboard : Bool
  policePresent : Bool
  drivable : Bool
deriving DecidableEq, Repr

/-- Outcome of the JS expression `scenarios[key]?.()` (src/app.js line
486).  `scenarios` is a plain object literal, so the bracket lookup
traverses the prototype chain: besides the five own preset factories,
every `Object.prototype` member is found.  Calling those with no
arguments gives exactly four behaviours:
* a preset factory returns its field bundle;
* `constructor`, `toString`, `toLocaleString` and `valueOf` return a
  truthy non-preset value (`Object()` gives `{}`; the string-returning
  two give `"[object Object]"`; `valueOf` returns the `scenarios`
  object itself) whose own enumerable properties are index keys
  `"0"`..`"14"`, the five preset names, or nothing — never a Signal
  Store schema field, so its spread writes only junk non-schema keys;
* `hasOwnProperty`, `isPrototypeOf`, `propertyIsEnumerable`,
  `__lookupGetter__` and `__lookupSetter__` return a falsy value, and
  every key with no property at all gives `undefined`;
* `__proto__` is not callable and `__defineGetter__`/`__defineSetter__`
  throw on zero arguments, so the call raises a `TypeError`. -/
inductive ScenarioCall where
  | preset (p : ScenarioPreset)
  | junkTruthy
  | falsyOrAbsent
  | callThrows
deriving DecidableEq, Repr

/-- The prototype-chain lookup-and-call `scenarios[key]?.()` of
src/app.js lines 447-486, classified as a `ScenarioCall`. -/
def scenarioLookup (key : String) : ScenarioCall :=
  if key = "blocked1" then .preset ⟨Condition.BLOCKED, 1, true, false, true⟩
  else if key = "blocked6" then .preset ⟨Condition.BLOCKED, 6, true, false, true⟩
  else if key = "stuckRider" then .preset ⟨Condition.STUCK, 4, true, false, true⟩
  else if key = "stuckPolice" then .preset ⟨Condition.STUCK, 3, false, true, false⟩
  else if key = "degradedND" then .preset ⟨Condition.DEGRADED, 0, false, false, false⟩
  else if key = "constructor" ∨ key = "toString" ∨ key = "toLocaleString" ∨
      key = "valueOf" then .junkTruthy
  else if key = "__proto__" ∨ key = "__defineGetter__" ∨ key = "__defineSetter__" then
    .callThrows
  else .falsyOrAbsent

/-- `applyScenario` of src/app.js lines 485-496, on the Signal Store
schema.  A falsy `next` returns early (`if (!next) return;`); a thrown
`TypeError` (modelled as `none`) also leaves the store untouched; a
truthy `next` is spread over `signals` and then
`currentIntervention`/`attemptCount`/`lastAction` are overwritten — for
the junk values the spread writes no schema field (see `ScenarioCall`),
so only those explicit resets take effect on the typed store. -/
def applyScenarioPreset (key : String) (s : Signals) : Option Signals :=
  match scenarioLookup key with
  | .callThrows => none
  | .falsyOrAbsent => some s
  | .junkTruthy =>
      some { s with currentIntervention := "none"
                    attemptCount := 0
                    lastAction := some "scenario" }
  | .preset p =>
      some { s with condition := p.condition
                    timeBlockedMin := p.timeBlockedMin
                    riderOnboard := p.riderOnboard
                    policePresent := p.policePresent
                    drivable := p.drivable
                    currentIntervention := "none"
                    attemptCount := 0
                    lastAction := some "scenario" }

/-- `add5min` of src/app.js lines 499-503. -/
def add5min (s : Signals) : Signals :=
  { s with timeBlockedMin := max 0 (s.timeBlockedMin + 5)
           lastAction := some "time+5" }

/-- `resetAttempts` of src/app.js lines 505-510. -/
def resetAttempts (s : Signals) : Signals :=
  { s with attemptCount := 0
           lastAction := some "resetAttempts" }

/-! ## Facts about the rule evaluator -/

lemma baseRec_state_cases (s g : Signals) :
    (baseRecommendation s g).state = State.MONITOR ∨
    (baseRecommendation s g).state = State.REMOTE ∨
    (baseRecommendation s g).state = State.FIELD ∨
    (baseRecommendation s g).state = State.SERVICE := by
  unfold baseRecommendation
  split_ifs <;> simp [result]

lemma evaluate_state_cases (s : Signals) :
    (evaluate s).state = State.MONITOR ∨
    (evaluate s).state = State.REMOTE ∨
    (evaluate s).state = State.FIELD ∨
    (evaluate s).state = State.SERVICE := by
  unfold evaluate evaluateImpl
  dsimp only
  split_ifs with h
  · simp [result]
  · exact baseRec_state_cases s s

/-- C1: for every Signal Store state, the base recommendation computed by
`evaluate` follows the fixed five-rule precedence with the first matching
rule winning: Degraded ∧ ¬drivable gives Service/High; else Stuck ∧
police gives FieldRecovery/High; else Stuck ∧ rider gives
RemoteAssist/High; else Blocked ∧ time ≥ 5 gives RemoteAssist/Medium;
else Monitor/Low — and in the Degraded ∧ ¬drivable case the full
`evaluate` result is that Service/High recommendation regardless of
every other field. -/
theorem C1_base_rule_precedence (s : Signals) :
    (s.condition = Condition.DEGRADED ∧ s.drivable = false →
      baseRecommendation s s = result State.SERVICE Priority.HIGH "Not drivable while degraded" s ∧
      evaluate s = result State.SERVICE Priority.HIGH "Not drivable while degraded" s)
  ∧ (¬(s.condition = Condition.DEGRADED ∧ s.drivable = false) →
      s.condition = Condition.STUCK ∧ s.policePresent = true →
      baseRecommendation s s = result State.FIELD Priority.HIGH "Stuck with police on scene" s)
  ∧ (¬(s.condition = Condition.DEGRADED ∧ s.drivable = false) →
      ¬(s.condition = Condition.STUCK ∧ s.policePresent = true) →
      s.condition = Condition.STUCK ∧ s.riderOnboard = true →
      baseRecommendation s s = result State.REMOTE Priority.HIGH "Stuck with rider onboard" s)
  ∧ (¬(s.condition = Condition.DEGRADED ∧ s.drivable = false) →
      ¬(s.condition = Condition.STUCK ∧ s.policePresent = true) →
      ¬(s.condition = Condition.STUCK ∧ s.riderOnboard = true) →
      s.condition = Condition.BLOCKED ∧ s.timeBlockedMin ≥ 5 →
      baseRecommendation s s = result State.REMOTE Priority.MEDIUM "Blocked ≥5 min" s)
  ∧ (¬(s.condition = Condition.DEGRADED ∧ s.drivable = false) →
      ¬(s.condition = Condition.STUCK ∧ s.policePresent = true) →
      ¬(s.condition = Condition.STUCK ∧ s.riderOnboard = true) →
      ¬(s.condition = Condition.BLOCKED ∧ s.timeBlockedMin ≥ 5) →
      baseRecommendation s s = result State.MONITOR Priority.LOW "Transient or minor" s) := by
  refine ⟨fun h1 => ?_, fun h1 h2 => ?_, fun h1 h2 h3 => ?_,
    fun h1 h2 h3 h4 => ?_, fun h1 h2 h3 h4 => ?_⟩
  · have hb : baseRecommendation s s =
        result State.SERVICE Priority.HIGH "Not drivable while degraded" s := by
      unfold baseRecommendation; rw [if_pos h1]
    refine ⟨hb, ?_⟩
    unfold evaluate evaluateImpl
    dsimp only
    rw [hb]
    simp [result, State.SERVICE]
  · unfold baseRecommendation; rw [if_neg h1, if_pos h2]
  · unfold baseRecommendation; rw [if_neg h1, if_neg h2, if_pos h3]
  · unfold baseRecommendation; rw [if_neg h1, if_neg h2, if_neg h3, if_pos h4]
  · unfold baseRecommendation; rw [if_neg h1, if_neg h2, if_neg h3, if_neg h4]

theorem C1_base_rule_precedence_witness :
    evaluate { initialSignals with condition := Condition.DEGRADED, drivable := false } =
      result State.SERVICE Priority.HIGH "Not drivable while degraded"
        { initialSignals with condition := Condition.DEGRADED, drivable := false } :=
  ((C1_base_rule_precedence _).1 ⟨rfl, rfl⟩).2

/-- C2: whenever the base recommendation is not Service, the current
intervention is RemoteAssist with at least one attempt, the condition is
Blocked or Stuck and timeBlockedMin ≥ 5, `evaluate` returns
FieldRecovery/High/"Remote assist failed to resolve", and this is never
a de-escalation: the base tier's ladder index is at most FieldRecovery's. -/
theorem C2_closed_loop_ratchet (s : Signals)
    (hbase : (baseRecommendation s s).state ≠ State.SERVICE)
    (hcur : s.currentIntervention = State.REMOTE)
    (hatt : s.attemptCount ≥ 1)
    (hcond : s.condition = Condition.BLOCKED ∨ s.condition = Condition.STUCK)
    (htime : s.timeBlockedMin ≥ 5) :
    evaluate s = result State.FIELD Priority.HIGH "Remote assist failed to resolve" s ∧
    jsIndexOf ladder (baseRecommendation s s).state ≤ jsIndexOf ladder State.FIELD := by
  constructor
  · unfold evaluate evaluateImpl
    dsimp only
    exact if_pos ⟨hbase, hcur, hatt, hcond, htime⟩
  · rcases baseRec_state_cases s s with h | h | h | h
    · simp only [h]; decide
    · simp only [h]; decide
    · simp only [h]; decide
    · exact absurd h hbase

/-- The Signal Store reached from the initial store by the spec §8
scenario: Blocked for 6 minutes after a committed Remote Assist attempt. -/
def remoteTriedSignals : Signals :=
  { initialSignals with
      timeBlockedMin := 6
      currentIntervention := State.REMOTE
      attemptCount := 1 }

theorem C2_closed_loop_ratchet_witness :
    evaluate remoteTriedSignals =
      result State.FIELD Priority.HIGH "Remote assist failed to resolve" remoteTriedSignals :=
  (C2_closed_loop_ratchet _ (by decide) rfl (by decide) (Or.inl rfl) (by decide)).1

lemma baseRec_proj (s g : Signals) :
    (baseRecommendation s g).state = (baseRecommendation s s).state ∧
    (baseRecommendation s g).priority = (baseRecommendation s s).priority ∧
    (baseRecommendation s g).oneLineWhy = (baseRecommendation s s).oneLineWhy ∧
    (baseRecommendation s g).cues = buildConfidenceCues (baseRecommendation s g).state g := by
  unfold baseRecommendation
  split_ifs <;> simp [result]

lemma buildConfidenceCues_known_length (st : String) (s : Signals)
    (h : st = State.MONITOR ∨ st = State.REMOTE ∨ st = State.FIELD ∨ st = State.SERVICE) :
    (buildConfidenceCues st s).length = 3 := by
  rcases h with h | h | h | h <;> subst h <;>
    simp [buildConfidenceCues, State.MONITOR, State.REMOTE, State.FIELD, State.SERVICE]

lemma evaluateImpl_state_eq (s g : Signals) :
    (evaluateImpl s g).state = (evaluate s).state := by
  unfold evaluate evaluateImpl
  dsimp only
  rw [(baseRec_proj s g).1]
  split_ifs
  · simp [result]
  · exact (baseRec_proj s g).1

lemma evaluateImpl_priority_eq (s g : Signals) :
    (evaluateImpl s g).priority = (evaluate s).priority := by
  unfold evaluate evaluateImpl
  dsimp only
  rw [(baseRec_proj s g).1]
  split_ifs
  · simp [result]
  · exact (baseRec_proj s g).2.1

lemma evaluateImpl_why_eq (s g : Signals) :
    (evaluateImpl s g).oneLineWhy = (evaluate s).oneLineWhy := by
  unfold evaluate evaluateImpl
  dsimp only
  rw [(baseRec_proj s g).1]
  split_ifs
  · simp [result]
  · exact (baseRec_proj s g).2.2.1

lemma evaluateImpl_cues_from_global (s g : Signals) :
    (evaluateImpl s g).cues = buildConfidenceCues (evaluateImpl s g).state g := by
  unfold evaluateImpl
  dsimp only
  split_ifs
  · simp [result]
  · exact (baseRec_proj s g).2.2.2

/-- The Signal Store snapshot Stuck-with-rider (base rule 3 fires). -/
def snapStuckRider : Signals :=
  { initialSignals with
      condition := Condition.STUCK
      riderOnboard := true }

/-- A different module-global store: same snapshot but police present,
which flips the RemoteAssist dispatch-avoidance cue. -/
def globPolice : Signals :=
  { snapStuckRider with policePresent := true }

/-- C8 counterexample: `evaluate`'s result is NOT a function of the
snapshot argument alone — `result` (src/app.js line 137) computes the
cues from the module-global `signals`, so the same snapshot argument
with two different globals yields different Recommendations (the
dispatch-avoidance cue answer flips from "Yes" to "Unlikely"). -/
theorem C8_counterexample :
    evaluateImpl snapStuckRider snapStuckRider ≠ evaluateImpl snapStuckRider globPolice := by
  decide

/-- C8 (amended): the state, priority and rationale of `evaluate` depend
only on the snapshot argument; the cues are computed from the
module-global `signals` object; at every call site in the source the
argument is that global, and then the whole Recommendation — including
exactly three cue pairs computed from that same snapshot — is a pure
function of the snapshot, identical on repeated calls. -/
theorem C8_evaluate_pure_on_diagonal (s g : Signals) :
    (evaluateImpl s g).state = (evaluate s).state
  ∧ (evaluateImpl s g).priority = (evaluate s).priority
  ∧ (evaluateImpl s g).oneLineWhy = (evaluate s).oneLineWhy
  ∧ (evaluateImpl s g).cues = buildConfidenceCues (evaluateImpl s g).state g
  ∧ (evaluate s).cues = buildConfidenceCues (evaluate s).state s
  ∧ (evaluate s).cues.length = 3 := by
  refine ⟨evaluateImpl_state_eq s g, evaluateImpl_priority_eq s g,
    evaluateImpl_why_eq s g, evaluateImpl_cues_from_global s g,
    evaluateImpl_cues_from_global s s, ?_⟩
  rw [show (evaluate s).cues = buildConfidenceCues (evaluate s).state s from
    evaluateImpl_cues_from_global s s]
  exact buildConfidenceCues_known_length _ s (evaluate_state_cases s)

/-- C9: Confirm commits the recommended state (incrementing
`attemptCount` iff it is RemoteAssist); Escalate commits the state one
ladder step above the recommended state, clamped at the top
(incrementing `attemptCount` iff the escalated state is RemoteAssist);
hence Escalate's committed tier is always at or above Confirm's, and
escalating an already-Service recommendation stays at Service. -/
theorem C9_confirm_escalate_ladder (s : Signals) :
    (confirmAction s).currentIntervention = (evaluate s).state
  ∧ ((confirmAction s).attemptCount =
      if (evaluate s).state = State.REMOTE then s.attemptCount + 1 else s.attemptCount)
  ∧ (jsIndexOf ladder (escalateAction s).currentIntervention =
      min (jsIndexOf ladder (evaluate s).state + 1) 3)
  ∧ ((escalateAction s).attemptCount =
      if (escalateAction s).currentIntervention = State.REMOTE then s.attemptCount + 1
      else s.attemptCount)
  ∧ jsIndexOf ladder (confirmAction s).currentIntervention ≤
      jsIndexOf ladder (escalateAction s).currentIntervention
  ∧ ((evaluate s).state = State.SERVICE →
      (escalateAction s).currentIntervention = State.SERVICE) := by
  refine ⟨rfl, rfl, ?_, rfl, ?_, ?_⟩ <;>
  rcases evaluate_state_cases s with h | h | h | h <;>
    simp [escalateAction, confirmAction, h, jsIndexOf, jsIndexOfAux, ladder,
      State.MONITOR, State.REMOTE, State.FIELD, State.SERVICE, min_def]

/-- The degraded-not-drivable store (base rule 1, Service tier). -/
def degradedSignals : Signals :=
  { initialSignals with
      condition := Condition.DEGRADED
      drivable := false }

theorem C9_confirm_escalate_ladder_witness :
    (escalateAction degradedSignals).currentIntervention = State.SERVICE :=
  (C9_confirm_escalate_ladder degradedSignals).2.2.2.2.2 (by decide)

/-- C5 counterexample: Override with the unselected/invalid target `""`
is NOT a no-op — src/app.js lines 435-444 assign the chosen value to
`currentIntervention` unconditionally, record a last action, and
re-render: the Signal Store changes. -/
theorem C5_counterexample :
    "" ∉ ladder
  ∧ applyOverrideAction "" initialSignals ≠ initialSignals
  ∧ (applyOverrideAction "" initialSignals).currentIntervention = ""
  ∧ (applyOverrideAction "" initialSignals).lastAction = some "override" := by
  refine ⟨by decide, ?_, rfl, rfl⟩
  intro h
  exact absurd (congrArg Signals.currentIntervention h) (by decide)

/-- C5 (amended): Override performs no validity check: it writes
whatever target string was supplied (valid or not) into
`currentIntervention`, increments `attemptCount` iff the target is
RemoteAssist, leaves all other signal fields unchanged, and always
records the action and re-evaluates. -/
theorem C5_override_unchecked (chosen : String) (s : Signals) :
    (applyOverrideAction chosen s).currentIntervention = chosen
  ∧ ((applyOverrideAction chosen s).attemptCount =
      if chosen = State.REMOTE then s.attemptCount + 1 else s.attemptCount)
  ∧ (applyOverrideAction chosen s).condition = s.condition
  ∧ (applyOverrideAction chosen s).timeBlockedMin = s.timeBlockedMin
  ∧ (applyOverrideAction chosen s).riderOnboard = s.riderOnboard
  ∧ (applyOverrideAction chosen s).policePresent = s.policePresent
  ∧ (applyOverrideAction chosen s).drivable = s.drivable
  ∧ (applyOverrideAction chosen s).towEtaMin = s.towEtaMin
  ∧ (applyOverrideAction chosen s).riderState = s.riderState
  ∧ (applyOverrideAction chosen s).remoteAssistFailed = s.remoteAssistFailed
  ∧ (applyOverrideAction chosen s).lanePartiallyBlocked = s.lanePartiallyBlocked
  ∧ (applyOverrideAction chosen s).severityScore = s.severityScore :=
  ⟨rfl, rfl, rfl, rfl, rfl, rfl, rfl, rfl, rfl, rfl, rfl, rfl⟩

/-- A store with a live intervention history, for the scenario
counterexample. -/
def c7Store : Signals :=
  { initialSignals with
      currentIntervention := State.REMOTE
      attemptCount := 2 }

/-- C7 counterexample: `"constructor"` is not a preset name, yet loading
it is NOT a no-op — the prototype-chain lookup `scenarios["constructor"]`
finds the inherited `Object` constructor, `?.()` returns the truthy
`{}`, and src/app.js:488-495 proceeds: `currentIntervention` and
`attemptCount` are reset and a scenario action is recorded. -/
theorem C7_counterexample :
    "constructor" ∉ ["blocked1", "blocked6", "stuckRider", "stuckPolice", "degradedND"]
  ∧ applyScenarioPreset "constructor" c7Store ≠ some c7Store
  ∧ applyScenarioPreset "constructor" c7Store ≠ none
  ∧ applyScenarioPreset "constructor" c7Store =
      some { c7Store with currentIntervention := "none", attemptCount := 0,
                          lastAction := some "scenario" } := by
  refine ⟨by decide, by decide, by decide, by decide⟩

/-- C7 (amended): a preset name replaces exactly the five structured
fields and resets `currentIntervention`/`attemptCount`, with
`towEtaMin`, `riderState`, `remoteAssistFailed`, `lanePartiallyBlocked`
and `severityScore` unchanged (the transcript is a separate variable
this function never touches).  An unknown scenario name mutates nothing
only when it misses the prototype chain too: `constructor`, `toString`,
`toLocaleString` and `valueOf` yield a truthy junk value, so the load
proceeds and resets the intervention fields (the junk spread writes no
schema field); `__proto__`, `__defineGetter__` and `__defineSetter__`
make the call throw (no mutation); every other non-preset name is a
genuine no-op. -/
theorem C7_scenario_behavior (key : String) (s : Signals) :
    (scenarioLookup key = ScenarioCall.falsyOrAbsent → applyScenarioPreset key s = some s)
  ∧ (scenarioLookup key = ScenarioCall.callThrows → applyScenarioPreset key s = none)
  ∧ (scenarioLookup key = ScenarioCall.junkTruthy →
      applyScenarioPreset key s =
        some { s with currentIntervention := "none", attemptCount := 0,
                      lastAction := some "scenario" })
  ∧ (∀ p, scenarioLookup key = ScenarioCall.preset p →
      ∃ s2, applyScenarioPreset key s = some s2
        ∧ s2.condition = p.condition ∧ s2.timeBlockedMin = p.timeBlockedMin
        ∧ s2.riderOnboard = p.riderOnboard ∧ s2.policePresent = p.policePresent
        ∧ s2.drivable = p.drivable ∧ s2.currentIntervention = "none"
        ∧ s2.attemptCount = 0 ∧ s2.towEtaMin = s.towEtaMin
        ∧ s2.riderState = s.riderState ∧ s2.remoteAssistFailed = s.remoteAssistFailed
        ∧ s2.lanePartiallyBlocked = s.lanePartiallyBlocked
        ∧ s2.severityScore = s.severityScore)
  ∧ (key ∉ ["blocked1", "blocked6", "stuckRider", "stuckPolice", "degradedND"] →
      key ∉ ["constructor", "toString", "toLocaleString", "valueOf"] →
      key ∉ ["__proto__", "__defineGetter__", "__defineSetter__"] →
      applyScenarioPreset key s = some s) := by
  refine ⟨fun h => ?_, fun h => ?_, fun h => ?_, fun p h => ?_, fun h1 h2 h3 => ?_⟩
  · unfold applyScenarioPreset
    rw [h]
  · unfold applyScenarioPreset
    rw [h]
  · unfold applyScenarioPreset
    rw [h]
  · unfold applyScenarioPreset
    rw [h]
    exact ⟨_, rfl, rfl, rfl, rfl, rfl, rfl, rfl, rfl, rfl, rfl, rfl, rfl, rfl⟩
  · have n1 : ¬(key = "blocked1") := fun he => h1 (by rw [he]; decide)
    have n2 : ¬(key = "blocked6") := fun he => h1 (by rw [he]; decide)
    have n3 : ¬(key = "stuckRider") := fun he => h1 (by rw [he]; decide)
    have n4 : ¬(key = "stuckPolice") := fun he => h1 (by rw [he]; decide)
    have n5 : ¬(key = "degradedND") := fun he => h1 (by rw [he]; decide)
    have nj : ¬(key = "constructor" ∨ key = "toString" ∨ key = "toLocaleString" ∨
        key = "valueOf") := by
      rintro (he | he | he | he) <;> exact h2 (by rw [he]; decide)
    have nt : ¬(key = "__proto__" ∨ key = "__defineGetter__" ∨
        key = "__defineSetter__") := by
      rintro (he | he | he) <;> exact h3 (by rw [he]; decide)
    have hl : scenarioLookup key = ScenarioCall.falsyOrAbsent := by
      unfold scenarioLookup
      rw [if_neg n1, if_neg n2, if_neg n3, if_neg n4, if_neg n5, if_neg nj, if_neg nt]
    unfold applyScenarioPreset
    rw [hl]

theorem C7_scenario_behavior_witness :
    applyScenarioPreset "garbageKey" initialSignals = some initialSignals
  ∧ (∃ s2, applyScenarioPreset "blocked6" initialSignals = some s2 ∧
      s2.timeBlockedMin = 6 ∧ s2.attemptCount = 0) := by
  constructor
  · exact (C7_scenario_behavior "garbageKey" initialSignals).2.2.2.2
      (by decide) (by decide) (by decide)
  · obtain ⟨s2, ha, _, hb, _, _, _, _, hc, _⟩ :=
      (C7_scenario_behavior "blocked6" initialSignals).2.2.2.1
        ⟨Condition.BLOCKED, 6, true, false, true⟩ (by decide)
    exact ⟨s2, ha, hb, hc⟩

/-! ## Chat pipeline: strings, aggregator, extractor, relevance gate

The source lower-cases with `String.prototype.toLowerCase` and matches
with `String.prototype.includes` and the regex `/tow\s*eta\s*(\d+)/`;
all texts involved are ASCII, so ASCII case-mapping and literal
substring scanning model them exactly. -/

/-- `toLowerCase` (ASCII). -/
def jsToLower (s : String) : String := String.mk (s.data.map Char.toLower)

/-- `hay` starts with `needle`. -/
def leadsWith : List Char → List Char → Bool
  | [], _ => true
  | _ :: _, [] => false
  | a :: as, b :: bs => a = b && leadsWith as bs

/-- `needle` occurs contiguously in `hay` (JS `includes`). -/
def includesL : List Char → List Char → Bool
  | [], needle => needle.isEmpty
  | c :: t, needle => leadsWith needle (c :: t) || includesL t needle

def strIncludes (hay needle : String) : Bool := includesL hay.data needle.data

/-- JS `\d`. -/
def isDigitCh (c : Char) : Bool := '0' ≤ c && c ≤ '9'

/-- JS `\s` (the ASCII cases; the texts here contain no Unicode spaces). -/
def jsSpace (c : Char) : Bool :=
  c = ' ' || c = '\t' || c = '\n' || c = '\r' || c = '\x0b' || c = '\x0c'

/-- Strip a literal prefix, returning the rest on success. -/
def stripLit : List Char → List Char → Option (List Char)
  | [], cs => some cs
  | _ :: _, [] => none
  | l :: ls, c :: cs => if c = l then stripLit ls cs else none

/-- Match `tow\s*eta\s*(\d+)` anchored at the head of the list,
returning the captured (maximal) digit run. -/
def towAt (cs : List Char) : Option (List Char) :=
  match stripLit ['t', 'o', 'w'] cs with
  | none => none
  | some r1 =>
    match stripLit ['e', 't', 'a'] (r1.dropWhile jsSpace) with
    | none => none
    | some r3 =>
      let ds := (r3.dropWhile jsSpace).takeWhile isDigitCh
      if ds.isEmpty then none else some ds

/-- Leftmost match of `tow\s*eta\s*(\d+)` (JS `match`: the first match
in the string; `\d+` is greedy). -/
def towScanL : List Char → Option (List Char)
  | [] => none
  | c :: rest =>
    match towAt (c :: rest) with
    | some ds => some ds
    | none => towScanL rest

def towCapture (t : String) : Option (List Char) := towScanL t.data

/-- `/tow\s*eta\s*\d+/.test(t)`: same pattern, so it succeeds exactly
when the capturing match does. -/
def towTest (t : String) : Bool := (towCapture t).isSome

/-- `parseInt(digits, 10)` on a pure digit string. -/
def digitsToNat (ds : List Char) : Nat :=
  ds.foldl (fun acc c => acc * 10 + (c.toNat - '0'.toNat)) 0

/-- A chat message (src/app.js line 233); the wall-clock timestamp is
display only and not modelled. -/
structure Message where
  source : String
  text : String
  kind : String
deriving DecidableEq, Repr

/-- The template literal `Tow ETA ~${digits} minutes` of src/app.js
line 292. -/
def towFact (ds : List Char) : String :=
  String.mk ("Tow ETA ~".data ++ ds ++ " minutes".data)

/-- `aggregateSummary` of src/app.js lines 283-299: the JS `Set` keeps
insertion order and the seven canonical facts are pairwise distinct, so
the conditional concatenation below is the `Array.from(set)` content;
`.slice(0, 5)` is `take 5`. -/
def aggregateSummary (msgs : List Message) : List String :=
  let text := msgs.map (fun m => jsToLower m.text)
  let f1 := if text.any (fun t => strIncludes t "police arrived") then ["Police on scene"] else []
  let f2 := if text.any (fun t => strIncludes t "request immediate removal") then
      ["Police request immediate removal"] else []
  let f3 := match text.find? (fun t => towTest t) with
    | some t =>
      match towCapture t with
      | some ds => [towFact ds]
      | none => []
    | none => []
  let f4 := if text.any (fun t => strIncludes t "rider anxious") then
      ["Rider reported anxious but safe"] else []
  let f5 := if text.any (fun t => strIncludes t "remote assist attempt failed") then
      ["Remote assist attempt failed"] else []
  let f6 := if text.any (fun t => strIncludes t "lane partially blocked") then
      ["Lane partially blocked"] else []
  let f7 := if text.any (fun t => strIncludes t "no injuries") then
      ["No injuries reported"] else []
  (f1 ++ f2 ++ f3 ++ f4 ++ f5 ++ f6 ++ f7).take 5

/-- A candidate signal update `{key, value, label}` (src/app.js §extract). -/
structure Candidate where
  key : String
  value : Val
  label : String
deriving DecidableEq, Repr

/-- The template literal `Tow ETA ${digits}m` of src/app.js line 307. -/
def towLabel (ds : List Char) : String :=
  String.mk ("Tow ETA ".data ++ ds ++ "m".data)

/-- `extractSignals` of src/app.js lines 301-316. -/
def extractSignals (latestMsg : Message) (summary : List String) : List Candidate :=
  let t := jsToLower latestMsg.text
  let p1 := if strIncludes t "police arrived" || strIncludes t "request immediate removal" then
      [⟨"policePresent", Val.vBool true, "Police present"⟩] else []
  let p2 := match towCapture t with
    | some ds => [⟨"towEtaMin", Val.vInt (digitsToNat ds), towLabel ds⟩]
    | none => []
  let p3 := if strIncludes t "rider anxious" then
      [⟨"riderState", Val.vStr "anxious", "Rider state: anxious"⟩] else []
  let p4 := if strIncludes t "remote assist attempt failed" then
      [⟨"remoteAssistFailed", Val.vBool true, "Remote assist failed"⟩] else []
  let p5 := if strIncludes t "lane partially blocked" then
      [⟨"lanePartiallyBlocked", Val.vBool true, "Lane partially blocked"⟩] else []
  let p6 := if strIncludes t "no injuries" then
      [⟨"injuries", Val.vStr "none", "No injuries reported"⟩] else []
  let p7 := if summary.any (fun s => strIncludes (jsToLower s) "police on scene") then
      [⟨"policePresent", Val.vBool true, "Police present"⟩] else []
  p1 ++ p2 ++ p3 ++ p4 ++ p5 ++ p6 ++ p7

/-- The `signals` object viewed as a JS object: a total map from
property name to value (`Val.vUndefined` for absent properties).  The
gate and the external-Q&A path read and write it by dynamic key. -/
def JsStore : Type := String → Val

def JsStore.set (s : JsStore) (k : String) (v : Val) : JsStore :=
  fun q => if q = k then v else s q

/-- The allow-list `affects` of src/app.js line 321. -/
def affects : List String :=
  ["policePresent", "remoteAssistFailed", "towEtaMin", "lanePartiallyBlocked"]

/-- `promoteRelevantSignals` of src/app.js lines 318-330: for each
candidate in order, keys outside the allow-list are skipped, a candidate
equal to the stored value is skipped, otherwise the store is updated and
the candidate appended to the returned applied-list. -/
def promoteRelevantSignals (s : JsStore) : List Candidate → JsStore × List Candidate
  | [] => (s, [])
  | p :: rest =>
    if p.key ∈ affects then
      if s p.key ≠ p.value then
        let r := promoteRelevantSignals (JsStore.set s p.key p.value) rest
        (r.1, p :: r.2)
      else promoteRelevantSignals s rest
    else promoteRelevantSignals s rest

/-- The initial `signals` object of src/app.js lines 69-85, as a JS
object map. -/
def initialSignalsStore : JsStore := fun k =>
  if k = "condition" then Val.vStr Condition.BLOCKED
  else if k = "timeBlockedMin" then Val.vInt 1
  else if k = "riderOnboard" then Val.vBool true
  else if k = "policePresent" then Val.vBool false
  else if k = "drivable" then Val.vBool true
  else if k = "currentIntervention" then Val.vStr "none"
  else if k = "attemptCount" then Val.vInt 0
  else if k = "lastAction" then Val.vNull
  else if k = "towEtaMin" then Val.vNull
  else if k = "riderState" then Val.vNull
  else if k = "remoteAssistFailed" then Val.vBool false
  else if k = "lanePartiallyBlocked" then Val.vBool false
  else if k = "severityScore" then Val.vNull
  else Val.vUndefined

/-- The property names of the Signal Store schema (src/app.js 69-85). -/
def signalStoreKeys : List String :=
  ["condition", "timeBlockedMin", "riderOnboard", "policePresent", "drivable",
   "currentIntervention", "attemptCount", "lastAction", "towEtaMin", "riderState",
   "remoteAssistFailed", "lanePartiallyBlocked", "severityScore"]

/-- The `new_signals` loop of `handleAsk` (src/app.js lines 551-557):
each entry whose value differs from the stored one is written directly
(`signals[k] = v`) with no allow-list or schema check; each applied
entry additionally emits a system chat message (that message feeds the
chat pipeline, modelled separately by `processMsgF`). -/
def applyNewSignals (s : JsStore) : List (String × Val) → JsStore
  | [] => s
  | (k, v) :: rest =>
    if s k ≠ v then applyNewSignals (JsStore.set s k v) rest
    else applyNewSignals s rest

/-- The system notification `New signal detected: ${p.label}` emitted
for an applied candidate (src/app.js line 274). -/
def sysMsgOf (p : Candidate) : Message :=
  ⟨"System", "New signal detected: " ++ p.label, "system"⟩

/-- The chat-side mutable state: transcript, `signals` object, live
summary (src/app.js lines 69-85, 233-234). -/
structure AppState where
  chatMessages : List Message
  signals : JsStore
  liveSummary : List String

mutual

/-- `addChatMessage` + `runAgents` (src/app.js lines 236-281), with
explicit fuel: append the message, recompute the live summary, extract
and gate, then recursively process one system notification per applied
candidate (the source's `promoted.forEach(p => addChatMessage(...))`).
`none` means the fuel ran out before the cascade finished. -/
def processMsgF : Nat → AppState → Message → Option AppState
  | 0, _, _ => none
  | n + 1, st, msg =>
    let msgs2 := st.chatMessages ++ [msg]
    let summary := aggregateSummary msgs2
    let ex := extractSignals msg summary
    let pr := promoteRelevantSignals st.signals ex
    processListF n ⟨msgs2, pr.1, summary⟩ pr.2
termination_by n _ _ => (n, 0)

/-- Depth-first processing of the pending system notifications. -/
def processListF : Nat → AppState → List Candidate → Option AppState
  | _, st, [] => some st
  | n, st, p :: ps =>
    match processMsgF n st (sysMsgOf p) with
    | none => none
    | some st2 => processListF n st2 ps
termination_by n _ ps => (n, ps.length + 1)

end

/-! ## Relevance-gate facts -/

lemma promote_frame (cs : List Candidate) : ∀ (s : JsStore) (k : String),
    k ∉ affects → (promoteRelevantSignals s cs).1 k = s k := by
  induction cs with
  | nil => intro s k _; rfl
  | cons p rest ih =>
    intro s k hk
    simp only [promoteRelevantSignals]
    split_ifs with h1 h2
    · have hne : k ≠ p.key := fun he => hk (he ▸ h1)
      simp only
      rw [ih _ k hk]
      simp [JsStore.set, hne]
    · exact ih s k hk
    · exact ih s k hk

lemma promote_sub (cs : List Candidate) : ∀ s : JsStore,
    (promoteRelevantSignals s cs).2.Sublist cs := by
  induction cs with
  | nil => intro s; exact List.Sublist.refl _
  | cons p rest ih =>
    intro s
    simp only [promoteRelevantSignals]
    split_ifs with h1 h2
    · exact List.Sublist.cons₂ p (ih _)
    · exact List.Sublist.cons p (ih s)
    · exact List.Sublist.cons p (ih s)

lemma promote_keys (cs : List Candidate) : ∀ (s : JsStore) (p : Candidate),
    p ∈ (promoteRelevantSignals s cs).2 → p.key ∈ affects := by
  induction cs with
  | nil => intro s p hp; exact absurd hp (by simp [promoteRelevantSignals])
  | cons q rest ih =>
    intro s p hp
    simp only [promoteRelevantSignals] at hp
    split_ifs at hp with h1 h2
    · rcases List.mem_cons.1 hp with h | h
      · exact h ▸ h1
      · exact ih _ p h
    · exact ih s p hp
    · exact ih s p hp

lemma promote_all_noop (cs : List Candidate) : ∀ s : JsStore,
    (∀ p ∈ cs, p.key ∉ affects ∨ s p.key = p.value) →
    promoteRelevantSignals s cs = (s, []) := by
  induction cs with
  | nil => intro s _; rfl
  | cons q rest ih =>
    intro s h
    simp only [promoteRelevantSignals]
    rcases h q (List.mem_cons_self q rest) with hk | hv
    · rw [if_neg hk]
      exact ih s (fun p hp => h p (List.mem_cons_of_mem q hp))
    · by_cases hk : q.key ∈ affects
      · rw [if_pos hk, if_neg (not_not_intro hv)]
        exact ih s (fun p hp => h p (List.mem_cons_of_mem q hp))
      · rw [if_neg hk]
        exact ih s (fun p hp => h p (List.mem_cons_of_mem q hp))

lemma promote_final_val (cs : List Candidate) : ∀ (s : JsStore) (k : String) (v : Val),
    (∀ p ∈ cs, p.key = k → p.value = v) → s k = v →
    (promoteRelevantSignals s cs).1 k = v := by
  induction cs with
  | nil => intro s k v _ hs; exact hs
  | cons q rest ih =>
    intro s k v hcons hs
    simp only [promoteRelevantSignals]
    split_ifs with h1 h2
    · simp only
      apply ih _ k v (fun p hp hk => hcons p (List.mem_cons_of_mem q hp) hk)
      by_cases hqk : q.key = k
      · subst hqk
        simp [JsStore.set, hcons q (List.mem_cons_self q rest) rfl]
      · unfold JsStore.set
        rw [if_neg (fun he => hqk he.symm)]
        exact hs
    · exact ih s k v (fun p hp hk => hcons p (List.mem_cons_of_mem q hp) hk) hs
    · exact ih s k v (fun p hp hk => hcons p (List.mem_cons_of_mem q hp) hk) hs

lemma promote_key_val (cs : List Candidate) : ∀ (s : JsStore) (k : String) (v : Val),
    k ∈ affects → (∀ p ∈ cs, p.key = k → p.value = v) → (∃ p ∈ cs, p.key = k) →
    (promoteRelevantSignals s cs).1 k = v := by
  induction cs with
  | nil => intro s k v _ _ hex; exact absurd hex (by simp)
  | cons q rest ih =>
    intro s k v hk hcons hex
    by_cases hqk : q.key = k
    · have hqv : q.value = v := hcons q (List.mem_cons_self q rest) hqk
      simp only [promoteRelevantSignals]
      rw [if_pos (hqk ▸ hk)]
      by_cases hsv : s q.key = q.value
      · rw [if_neg (not_not_intro hsv)]
        exact promote_final_val rest s k v
          (fun p hp hpk => hcons p (List.mem_cons_of_mem q hp) hpk)
          (by rw [← hqk, hsv, hqv])
      · rw [if_pos hsv]
        simp only
        exact promote_final_val rest _ k v
          (fun p hp hpk => hcons p (List.mem_cons_of_mem q hp) hpk)
          (by simp [JsStore.set, hqk.symm, hqv])
    · have hex2 : ∃ p ∈ rest, p.key = k := by
        rcases hex with ⟨p, hp, hpk⟩
        rcases List.mem_cons.1 hp with h | h
        · exact absurd (h ▸ hpk) hqk
        · exact ⟨p, h, hpk⟩
      simp only [promoteRelevantSignals]
      split_ifs with h1 h2
      · exact ih _ k v hk (fun p hp hpk => hcons p (List.mem_cons_of_mem q hp) hpk) hex2
      · exact ih s k v hk (fun p hp hpk => hcons p (List.mem_cons_of_mem q hp) hpk) hex2
      · exact ih s k v hk (fun p hp hpk => hcons p (List.mem_cons_of_mem q hp) hpk) hex2

/-- C3: the Relevance Gate applies a candidate iff its key is in the
allow-list `affects` and its value differs from the currently stored
value; the applied-list is a sublist of the candidates in discovery
order, contains only allow-listed keys, and skipped candidates (other
key, or equal value) leave the store and applied-list exactly as if
they were absent — in particular `condition`, `timeBlockedMin`,
`riderOnboard`, `drivable`, `currentIntervention` and `attemptCount`
are never modified by the gate. -/
theorem C3_relevance_gate (s : JsStore) (c : Candidate) (cs : List Candidate) :
    (∀ k, k ∉ affects → (promoteRelevantSignals s cs).1 k = s k)
  ∧ (promoteRelevantSignals s cs).2.Sublist cs
  ∧ (∀ p ∈ (promoteRelevantSignals s cs).2, p.key ∈ affects)
  ∧ (∀ k, k ∈ ["condition", "timeBlockedMin", "riderOnboard", "drivable",
        "currentIntervention", "attemptCount"] → (promoteRelevantSignals s cs).1 k = s k)
  ∧ ((c.key ∉ affects ∨ s c.key = c.value) →
      promoteRelevantSignals s (c :: cs) = promoteRelevantSignals s cs)
  ∧ (c.key ∈ affects → s c.key ≠ c.value →
      promoteRelevantSignals s (c :: cs) =
        ((promoteRelevantSignals (JsStore.set s c.key c.value) cs).1,
         c :: (promoteRelevantSignals (JsStore.set s c.key c.value) cs).2)) := by
  refine ⟨promote_frame cs s, promote_sub cs s, fun p hp => promote_keys cs s p hp,
    ?_, ?_, ?_⟩
  · intro k hk
    apply promote_frame cs s
    fin_cases hk <;> decide
  · intro h
    rcases h with hk | hv
    · simp only [promoteRelevantSignals]
      rw [if_neg hk]
    · simp only [promoteRelevantSignals]
      by_cases hk : c.key ∈ affects
      · rw [if_pos hk, if_neg (not_not_intro hv)]
      · rw [if_neg hk]
  · intro hk hv
    simp only [promoteRelevantSignals]
    rw [if_pos hk, if_pos hv]

def riderCand : Candidate := ⟨"riderState", Val.vStr "anxious", "Rider state: anxious"⟩

def policeCand : Candidate := ⟨"policePresent", Val.vBool true, "Police present"⟩

theorem C3_relevance_gate_witness :
    promoteRelevantSignals initialSignalsStore (riderCand :: [policeCand]) =
      promoteRelevantSignals initialSignalsStore [policeCand]
  ∧ (promoteRelevantSignals initialSignalsStore [policeCand]).2 = [policeCand]
  ∧ (promoteRelevantSignals initialSignalsStore [policeCand]).1 "condition" =
      initialSignalsStore "condition" :=
  ⟨(C3_relevance_gate initialSignalsStore riderCand [policeCand]).2.2.2.2.1
      (Or.inl (by decide)),
   by decide,
   (C3_relevance_gate initialSignalsStore policeCand []).2.2.2.1 "condition" (by decide)⟩

/-- C4 counterexample: the Q&A `new_signals` path is NOT the gate: an
entry with the unknown key `injuries` (outside both the Signal Store
schema and the allow-list) is written into the store, where the gate
would have dropped it. -/
theorem C4_counterexample :
    applyNewSignals initialSignalsStore [("injuries", Val.vStr "none")] "injuries" =
      Val.vStr "none"
  ∧ initialSignalsStore "injuries" = Val.vUndefined
  ∧ "injuries" ∉ signalStoreKeys
  ∧ "injuries" ∉ affects
  ∧ (promoteRelevantSignals initialSignalsStore
        [⟨"injuries", Val.vStr "none", "No injuries reported"⟩]).1 "injuries" =
      Val.vUndefined := by
  refine ⟨by decide, by decide, by decide, by decide, by decide⟩

/-- C4 (amended): `handleAsk` writes every `new_signals` entry whose
value differs from the stored value directly into the Signal Store,
with no allow-list or schema filtering — unknown keys are created, not
ignored; only no-op entries (equal value) are skipped.  By contrast the
gate leaves a non-allow-listed key untouched. -/
theorem C4_new_signals_unfiltered (s : JsStore) (k : String) (v : Val) :
    (s k ≠ v → applyNewSignals s [(k, v)] k = v)
  ∧ (s k = v → applyNewSignals s [(k, v)] = s)
  ∧ (k ∉ affects →
      (promoteRelevantSignals s [⟨k, v, ""⟩]).1 k = s k ∧
      (promoteRelevantSignals s [⟨k, v, ""⟩]).2 = []) := by
  refine ⟨fun h => ?_, fun h => ?_, fun h => ?_⟩
  · simp [applyNewSignals, h, JsStore.set]
  · simp [applyNewSignals, h]
  · simp [promoteRelevantSignals, h]

theorem C4_new_signals_unfiltered_witness :
    applyNewSignals initialSignalsStore [("injuries", Val.vStr "none")] "injuries" =
      Val.vStr "none" :=
  (C4_new_signals_unfiltered initialSignalsStore "injuries" (Val.vStr "none")).1 (by decide)

/-! ## String-matching facts -/

lemma anyMapEq {α β : Type} (l : List α) (f : α → β) (p : β → Bool) :
    (l.map f).any p = l.any (fun a => p (f a)) := by
  induction l with
  | nil => rfl
  | cons a rest ih => simp [ih]

lemma digit_not_space (c : Char) (h : isDigitCh c = true) : jsSpace c = false := by
  by_contra hc
  have hc2 : jsSpace c = true := by simpa using hc
  simp only [jsSpace, Bool.or_eq_true, decide_eq_true_eq] at hc2
  rcases hc2 with ((((h1 | h1) | h1) | h1) | h1) | h1 <;> subst h1 <;>
    exact absurd h (by decide)

lemma toLower_digit (c : Char) (h : isDigitCh c = true) : Char.toLower c = c := by
  simp only [isDigitCh, Bool.and_eq_true, decide_eq_true_eq] at h
  have h9 : c.toNat ≤ 57 := by
    have := h.2
    rw [Char.le_def] at this
    exact this
  simp only [Char.toLower]
  rw [if_neg (fun hh => by omega)]

lemma map_toLower_digits (ds : List Char) (h : ∀ c ∈ ds, isDigitCh c = true) :
    ds.map Char.toLower = ds := by
  induction ds with
  | nil => rfl
  | cons d rest ih =>
    simp [toLower_digit d (h d (List.mem_cons_self _ _)),
      ih (fun c hc => h c (List.mem_cons_of_mem d hc))]

lemma towFact_head (ds : List Char) : (towFact ds).data.head? = some 'T' := rfl

lemma towFact_ne (ds : List Char) (s : String) (h : s.data.head? ≠ some 'T') :
    towFact ds ≠ s := fun he => h (he ▸ towFact_head ds)

lemma leadsWith_skip_digits (pat : List Char) : ∀ (A ds B : List Char), ds ≠ [] →
    (∀ c ∈ ds, isDigitCh c = true) → (∀ c ∈ pat, isDigitCh c = false) →
    leadsWith pat (A ++ (ds ++ B)) = true → leadsWith pat A = true := by
  induction pat with
  | nil => intro A ds B _ _ _ _; rfl
  | cons p pt ih =>
    intro A ds B hne hds hpat hl
    cases A with
    | nil =>
      cases ds with
      | nil => exact absurd rfl hne
      | cons d ds2 =>
        simp only [List.nil_append, List.cons_append, leadsWith, Bool.and_eq_true,
          decide_eq_true_eq] at hl
        have hd : isDigitCh d = true := hds d (List.mem_cons_self d ds2)
        have hp : isDigitCh p = false := hpat p (List.mem_cons_self p pt)
        rw [hl.1, hd] at hp
        exact absurd hp (by simp)
    | cons a A2 =>
      simp only [List.cons_append, leadsWith, Bool.and_eq_true, decide_eq_true_eq] at hl ⊢
      exact ⟨hl.1, ih A2 ds B hne hds (fun c hc => hpat c (List.mem_cons_of_mem p hc)) hl.2⟩

lemma includesL_digits_prefix (pat B : List Char) (hB : includesL B pat = false)
    (hpat : ∀ c ∈ pat, isDigitCh c = false) (hne : pat ≠ []) :
    ∀ ds : List Char, (∀ c ∈ ds, isDigitCh c = true) → includesL (ds ++ B) pat = false := by
  intro ds
  induction ds with
  | nil => intro _; simpa using hB
  | cons d ds2 ih =>
    intro hds
    simp only [List.cons_append, includesL, Bool.or_eq_false_iff]
    constructor
    · cases pat with
      | nil => exact absurd rfl hne
      | cons p pt =>
        have hpd : ¬(p = d) := fun he => by
          have h1 := hpat p (List.mem_cons_self p pt)
          have h2 := hds d (List.mem_cons_self d ds2)
          rw [he, h2] at h1
          exact absurd h1 (by simp)
        simp [leadsWith, hpd]
    · exact ih (fun c hc => hds c (List.mem_cons_of_mem d hc))

lemma includesL_split (pat B : List Char) (hpat : ∀ c ∈ pat, isDigitCh c = false)
    (hne : pat ≠ []) (hB : includesL B pat = false) :
    ∀ (A ds : List Char), includesL A pat = false → ds ≠ [] →
      (∀ c ∈ ds, isDigitCh c = true) → includesL (A ++ (ds ++ B)) pat = false := by
  intro A
  induction A with
  | nil =>
    intro ds _ hdne hds
    simpa using includesL_digits_prefix pat B hB hpat hne ds hds
  | cons a A2 ih =>
    intro ds hA hdne hds
    simp only [includesL, Bool.or_eq_false_iff] at hA
    simp only [List.cons_append, includesL, Bool.or_eq_false_iff]
    constructor
    · by_contra hlw
      have hlw2 : leadsWith pat (a :: (A2 ++ (ds ++ B))) = true := by simpa using hlw
      have : leadsWith pat (a :: A2) = true := by
        have := leadsWith_skip_digits pat (a :: A2) ds B hdne hds hpat
          (by simpa [List.cons_append] using hlw2)
        exact this
      rw [this] at hA
      exact absurd hA.1 (by simp)
    · exact ih ds hA.2 hdne hds

lemma towAt_digits (cs ds : List Char) (h : towAt cs = some ds) :
    ds ≠ [] ∧ ∀ c ∈ ds, isDigitCh c = true := by
  unfold towAt at h
  split at h
  · exact absurd h (by simp)
  · split at h
    · exact absurd h (by simp)
    · dsimp only at h
      split_ifs at h with hie
      · have hds := Option.some.inj h
        constructor
        · intro he
          apply hie
          rw [← hds] at he
          simp [he]
        · intro c hc
          rw [← hds] at hc
          exact List.mem_takeWhile_imp hc

lemma towScanL_digits : ∀ l ds : List Char, towScanL l = some ds →
    ds ≠ [] ∧ ∀ c ∈ ds, isDigitCh c = true := by
  intro l
  induction l with
  | nil => intro ds h; exact absurd h (by simp [towScanL])
  | cons c rest ih =>
    intro ds h
    simp only [towScanL] at h
    cases ha : towAt (c :: rest) with
    | some ds2 =>
      rw [ha] at h
      exact (Option.some.inj h) ▸ towAt_digits _ _ ha
    | none =>
      rw [ha] at h
      exact ih ds h

/-! ## Aggregator facts (C6) -/

lemma ite_singleton_sub {α : Type} (b : Prop) [Decidable b] (a : α) :
    (if b then [a] else []).Sublist [a] := by
  split_ifs
  · exact List.Sublist.refl _
  · exact List.nil_sublist _

lemma jsToLower_towFact (ds : List Char) (hds : ∀ c ∈ ds, isDigitCh c = true) :
    (jsToLower (towFact ds)).data = "tow eta ~".data ++ (ds ++ " minutes".data) := by
  show ((towFact ds).data.map Char.toLower) = _
  rw [show (towFact ds).data = "Tow ETA ~".data ++ (ds ++ " minutes".data) from rfl]
  rw [List.map_append, List.map_append, map_toLower_digits ds hds]
  rw [show "Tow ETA ~".data.map Char.toLower = "tow eta ~".data from by decide]
  rw [show " minutes".data.map Char.toLower = " minutes".data from by decide]

lemma towFact_no_police (ds : List Char) (hne : ds ≠ [])
    (hds : ∀ c ∈ ds, isDigitCh c = true) :
    strIncludes (jsToLower (towFact ds)) "police on scene" = false := by
  show includesL (jsToLower (towFact ds)).data "police on scene".data = false
  rw [jsToLower_towFact ds hds]
  exact includesL_split _ _ (by decide) (by decide) (by decide) _ ds (by decide) hne hds

lemma agg_full_nodup (ds : List Char) :
    (["Police on scene", "Police request immediate removal"] ++
      towFact ds :: ["Rider reported anxious but safe", "Remote assist attempt failed",
        "Lane partially blocked", "No injuries reported"]).Nodup := by
  have hT := towFact_head ds
  refine List.nodup_middle.2 (List.nodup_cons.2 ⟨fun hmem => ?_, by decide⟩)
  have h6 : towFact ds = "Police on scene" ∨
      towFact ds = "Police request immediate removal" ∨
      towFact ds = "Rider reported anxious but safe" ∨
      towFact ds = "Remote assist attempt failed" ∨
      towFact ds = "Lane partially blocked" ∨
      towFact ds = "No injuries reported" := by simpa using hmem
  rcases h6 with h | h | h | h | h | h <;> rw [h] at hT <;> exact absurd hT (by decide)

lemma any_append_single {α : Type} (A : List α) (x : α) (p : α → Bool)
    (hcov : p x = true → A.any p = true) : (A ++ [x]).any p = A.any p := by
  rw [List.any_append]
  cases hx : p x
  · simp [List.any_cons, hx]
  · simp [List.any_cons, hx, hcov hx]

lemma find?_append_single {α : Type} (A : List α) (x : α) (p : α → Bool)
    (hcov : p x = true → ∃ y ∈ A, p y = true) :
    (A ++ [x]).find? p = A.find? p := by
  rw [List.find?_append]
  cases hf : A.find? p with
  | some a => simp [Option.or]
  | none =>
    cases hx : p x with
    | false => simp [List.find?_cons, hx, Option.or]
    | true =>
      rcases hcov hx with ⟨y, hy, hpy⟩
      exact absurd hpy (List.find?_eq_none.1 hf y hy)

/-- All seven fact patterns of the appended message already matched some
earlier message of the transcript. -/
def coveredPatterns (m : Message) (msgs : List Message) : Prop :=
  (strIncludes (jsToLower m.text) "police arrived" = true →
    ∃ m2 ∈ msgs, strIncludes (jsToLower m2.text) "police arrived" = true)
  ∧ (strIncludes (jsToLower m.text) "request immediate removal" = true →
    ∃ m2 ∈ msgs, strIncludes (jsToLower m2.text) "request immediate removal" = true)
  ∧ (towTest (jsToLower m.text) = true →
    ∃ m2 ∈ msgs, towTest (jsToLower m2.text) = true)
  ∧ (strIncludes (jsToLower m.text) "rider anxious" = true →
    ∃ m2 ∈ msgs, strIncludes (jsToLower m2.text) "rider anxious" = true)
  ∧ (strIncludes (jsToLower m.text) "remote assist attempt failed" = true →
    ∃ m2 ∈ msgs, strIncludes (jsToLower m2.text) "remote assist attempt failed" = true)
  ∧ (strIncludes (jsToLower m.text) "lane partially blocked" = true →
    ∃ m2 ∈ msgs, strIncludes (jsToLower m2.text) "lane partially blocked" = true)
  ∧ (strIncludes (jsToLower m.text) "no injuries" = true →
    ∃ m2 ∈ msgs, strIncludes (jsToLower m2.text) "no injuries" = true)

/-- C6: the live summary is an ordered list of at most 5 entries with no
duplicates, recomputed purely from the transcript (identical on
repeated runs), and appending a message all of whose recognized
patterns already matched earlier messages leaves it unchanged. -/
theorem C6_aggregate_capped_dedup_stable (msgs : List Message) (m : Message) :
    (aggregateSummary msgs).length ≤ 5
  ∧ (aggregateSummary msgs).Nodup
  ∧ aggregateSummary msgs = aggregateSummary msgs
  ∧ (coveredPatterns m msgs → aggregateSummary (msgs ++ [m]) = aggregateSummary msgs) := by
  refine ⟨?_, ?_, rfl, ?_⟩
  · unfold aggregateSummary
    exact List.length_take_le 5 _
  · unfold aggregateSummary
    dsimp only
    apply List.Nodup.sublist (List.take_sublist 5 _)
    cases hf : (msgs.map fun m => jsToLower m.text).find? (fun t => towTest t) with
    | none =>
      dsimp only
      refine List.Nodup.sublist
        (List.Sublist.append (List.Sublist.append (List.Sublist.append
          (List.Sublist.append (List.Sublist.append (List.Sublist.append
            (ite_singleton_sub _ _) (ite_singleton_sub _ _))
            (List.nil_sublist [towFact []]))
          (ite_singleton_sub _ _)) (ite_singleton_sub _ _)) (ite_singleton_sub _ _))
          (ite_singleton_sub _ _))
        (agg_full_nodup [])
    | some t =>
      dsimp only
      cases hc : towCapture t with
      | none =>
        dsimp only
        refine List.Nodup.sublist
          (List.Sublist.append (List.Sublist.append (List.Sublist.append
            (List.Sublist.append (List.Sublist.append (List.Sublist.append
              (ite_singleton_sub _ _) (ite_singleton_sub _ _))
              (List.nil_sublist [towFact []]))
            (ite_singleton_sub _ _)) (ite_singleton_sub _ _)) (ite_singleton_sub _ _))
            (ite_singleton_sub _ _))
          (agg_full_nodup [])
      | some ds =>
        dsimp only
        refine List.Nodup.sublist
          (List.Sublist.append (List.Sublist.append (List.Sublist.append
            (List.Sublist.append (List.Sublist.append (List.Sublist.append
              (ite_singleton_sub _ _) (ite_singleton_sub _ _)) (List.Sublist.refl _))
            (ite_singleton_sub _ _)) (ite_singleton_sub _ _)) (ite_singleton_sub _ _))
            (ite_singleton_sub _ _))
          (agg_full_nodup ds)
  · intro hcov
    obtain ⟨hc1, hc2, hc3, hc4, hc5, hc6, hc7⟩ := hcov
    unfold aggregateSummary
    dsimp only
    rw [List.map_append]
    rw [show (List.map (fun m => jsToLower m.text) [m]) = [jsToLower m.text] from rfl]
    have e1 := any_append_single (msgs.map fun x => jsToLower x.text) (jsToLower m.text)
      (fun t => strIncludes t "police arrived") (fun hx => by
        rcases hc1 hx with ⟨m2, hm2, hp⟩
        exact List.any_eq_true.2 ⟨jsToLower m2.text, List.mem_map_of_mem _ hm2, hp⟩)
    have e2 := any_append_single (msgs.map fun x => jsToLower x.text) (jsToLower m.text)
      (fun t => strIncludes t "request immediate removal") (fun hx => by
        rcases hc2 hx with ⟨m2, hm2, hp⟩
        exact List.any_eq_true.2 ⟨jsToLower m2.text, List.mem_map_of_mem _ hm2, hp⟩)
    have ef := find?_append_single (msgs.map fun x => jsToLower x.text) (jsToLower m.text)
      (fun t => towTest t) (fun hx => by
        rcases hc3 hx with ⟨m2, hm2, hp⟩
        exact ⟨jsToLower m2.text, List.mem_map_of_mem _ hm2, hp⟩)
    have e4 := any_append_single (msgs.map fun x => jsToLower x.text) (jsToLower m.text)
      (fun t => strIncludes t "rider anxious") (fun hx => by
        rcases hc4 hx with ⟨m2, hm2, hp⟩
        exact List.any_eq_true.2 ⟨jsToLower m2.text, List.mem_map_of_mem _ hm2, hp⟩)
    have e5 := any_append_single (msgs.map fun x => jsToLower x.text) (jsToLower m.text)
      (fun t => strIncludes t "remote assist attempt failed") (fun hx => by
        rcases hc5 hx with ⟨m2, hm2, hp⟩
        exact List.any_eq_true.2 ⟨jsToLower m2.text, List.mem_map_of_mem _ hm2, hp⟩)
    have e6 := any_append_single (msgs.map fun x => jsToLower x.text) (jsToLower m.text)
      (fun t => strIncludes t "lane partially blocked") (fun hx => by
        rcases hc6 hx with ⟨m2, hm2, hp⟩
        exact List.any_eq_true.2 ⟨jsToLower m2.text, List.mem_map_of_mem _ hm2, hp⟩)
    have e7 := any_append_single (msgs.map fun x => jsToLower x.text) (jsToLower m.text)
      (fun t => strIncludes t "no injuries") (fun hx => by
        rcases hc7 hx with ⟨m2, hm2, hp⟩
        exact List.any_eq_true.2 ⟨jsToLower m2.text, List.mem_map_of_mem _ hm2, hp⟩)
    rw [e1, e2, ef, e4, e5, e6, e7]

def msgsW : List Message := [⟨"Mission Control", "Police arrived at the scene", "human"⟩]

def mW : Message := ⟨"Fleet Ops", "police arrived", "human"⟩

theorem C6_aggregate_capped_dedup_stable_witness :
    aggregateSummary (msgsW ++ [mW]) = aggregateSummary msgsW :=
  (C6_aggregate_capped_dedup_stable msgsW mW).2.2.2 (by unfold coveredPatterns; decide)

/-! ## Pipeline termination facts (C10) -/

lemma mem_ite_singleton {α : Type} {b : Prop} [Decidable b] {a x : α}
    (h : x ∈ (if b then [a] else [])) : x = a := by
  split_ifs at h
  · simpa using h
  · simp at h

lemma takeWhile_digits_m (ds : List Char) (hds : ∀ c ∈ ds, isDigitCh c = true) :
    List.takeWhile isDigitCh (ds ++ ['m']) = ds := by
  induction ds with
  | nil => decide
  | cons d ds2 ih =>
    simp only [List.cons_append, List.takeWhile_cons]
    rw [if_pos (hds d (List.mem_cons_self _ _))]
    rw [ih (fun c hc => hds c (List.mem_cons_of_mem d hc))]

lemma towScanL_step (c : Char) (l : List Char) (h : towAt (c :: l) = none) :
    towScanL (c :: l) = towScanL l := by
  simp only [towScanL, h]

lemma towScanL_sys (ds : List Char) (hne : ds ≠ [])
    (hds : ∀ c ∈ ds, isDigitCh c = true) :
    towScanL ("new signal detected: tow eta ".data ++ (ds ++ ['m'])) = some ds := by
  have hdw : List.dropWhile jsSpace (ds ++ ['m']) = ds ++ ['m'] := by
    cases ds with
    | nil => exact absurd rfl hne
    | cons d ds2 =>
      simp only [List.cons_append, List.dropWhile_cons]
      rw [digit_not_space d (hds d (List.mem_cons_self _ _))]
      simp
  have hie : ds.isEmpty = false := by
    cases ds
    · exact absurd rfl hne
    · rfl
  rw [show "new signal detected: tow eta ".data =
      'n' :: 'e' :: 'w' :: ' ' :: 's' :: 'i' :: 'g' :: 'n' :: 'a' :: 'l' :: ' ' ::
      'd' :: 'e' :: 't' :: 'e' :: 'c' :: 't' :: 'e' :: 'd' :: ':' :: ' ' ::
      't' :: 'o' :: 'w' :: ' ' :: 'e' :: 't' :: 'a' :: ' ' :: [] from rfl]
  simp only [List.cons_append, List.nil_append]
  iterate 21 rw [towScanL_step _ _ (by simp [towAt, stripLit])]
  simp [towScanL, towAt, stripLit, List.dropWhile_cons, jsSpace, hdw,
    takeWhile_digits_m ds hds, hie]

lemma agg_police (msgs : List Message) :
    ((aggregateSummary msgs).any fun s => strIncludes (jsToLower s) "police on scene") =
      (msgs.any fun m2 => strIncludes (jsToLower m2.text) "police arrived") := by
  unfold aggregateSummary
  dsimp only
  rw [anyMapEq msgs (fun m => jsToLower m.text) (fun t => strIncludes t "police arrived")]
  by_cases h1 : (msgs.any fun m2 => strIncludes (jsToLower m2.text) "police arrived") = true
  · rw [if_pos h1, h1]
    simp [List.take_succ_cons, List.any_cons,
      show strIncludes (jsToLower "Police on scene") "police on scene" = true from by decide]
  · have h1f : (msgs.any fun m2 => strIncludes (jsToLower m2.text) "police arrived") = false := by
      cases hh : (msgs.any fun m2 => strIncludes (jsToLower m2.text) "police arrived")
      · rfl
      · exact absurd hh h1
    rw [if_neg h1, h1f, List.any_eq_false]
    intro x hx
    have hx2 := List.take_subset 5 _ hx
    simp only [List.nil_append, List.mem_append] at hx2
    simp only [Bool.not_eq_true]
    rcases hx2 with ((((hx2 | hx2) | hx2) | hx2) | hx2) | hx2
    · rw [mem_ite_singleton hx2]; decide
    · revert hx2
      cases hf : (msgs.map fun m => jsToLower m.text).find? (fun t => towTest t) with
      | none => intro hx2; exact absurd hx2 (by simp)
      | some t =>
        dsimp only
        cases hc : towCapture t with
        | none => intro hx2; exact absurd hx2 (by simp)
        | some ds =>
          intro hx2
          have hx3 : x = towFact ds := by simpa using hx2
          rw [hx3]
          exact towFact_no_police ds (towScanL_digits t.data ds hc).1
            (towScanL_digits t.data ds hc).2
    · rw [mem_ite_singleton hx2]; decide
    · rw [mem_ite_singleton hx2]; decide
    · rw [mem_ite_singleton hx2]; decide
    · rw [mem_ite_singleton hx2]; decide

lemma extract_mem (m : Message) (summary : List String) (p : Candidate)
    (hp : p ∈ extractSignals m summary) :
    p = ⟨"policePresent", Val.vBool true, "Police present"⟩
  ∨ (∃ ds, towCapture (jsToLower m.text) = some ds ∧
        p = ⟨"towEtaMin", Val.vInt (digitsToNat ds), towLabel ds⟩)
  ∨ p = ⟨"riderState", Val.vStr "anxious", "Rider state: anxious"⟩
  ∨ p = ⟨"remoteAssistFailed", Val.vBool true, "Remote assist failed"⟩
  ∨ p = ⟨"lanePartiallyBlocked", Val.vBool true, "Lane partially blocked"⟩
  ∨ p = ⟨"injuries", Val.vStr "none", "No injuries reported"⟩ := by
  unfold extractSignals at hp
  dsimp only at hp
  simp only [List.mem_append] at hp
  rcases hp with ((((((hp | hp) | hp) | hp) | hp) | hp) | hp)
  · exact Or.inl (mem_ite_singleton hp)
  · revert hp
    cases hcap : towCapture (jsToLower m.text) with
    | none => intro hp; exact absurd hp (by simp)
    | some ds =>
      intro hp
      exact Or.inr (Or.inl ⟨ds, rfl, by simpa using hp⟩)
  · exact Or.inr (Or.inr (Or.inl (mem_ite_singleton hp)))
  · exact Or.inr (Or.inr (Or.inr (Or.inl (mem_ite_singleton hp))))
  · exact Or.inr (Or.inr (Or.inr (Or.inr (Or.inl (mem_ite_singleton hp)))))
  · exact Or.inr (Or.inr (Or.inr (Or.inr (Or.inr (mem_ite_singleton hp)))))
  · exact Or.inl (mem_ite_singleton hp)

lemma extract_police_val (m : Message) (summary : List String) (q : Candidate)
    (hq : q ∈ extractSignals m summary) (hk : q.key = "policePresent") :
    q.value = Val.vBool true := by
  rcases extract_mem m summary q hq with h | ⟨ds, _, h⟩ | h | h | h | h
  · rw [h]
  · rw [h] at hk; simp at hk
  · rw [h] at hk; simp at hk
  · rw [h] at hk; simp at hk
  · rw [h] at hk; simp at hk
  · rw [h] at hk; simp at hk

lemma extract_lane_val (m : Message) (summary : List String) (q : Candidate)
    (hq : q ∈ extractSignals m summary) (hk : q.key = "lanePartiallyBlocked") :
    q.value = Val.vBool true := by
  rcases extract_mem m summary q hq with h | ⟨ds, _, h⟩ | h | h | h | h
  · rw [h] at hk; simp at hk
  · rw [h] at hk; simp at hk
  · rw [h] at hk; simp at hk
  · rw [h] at hk; simp at hk
  · rw [h]
  · rw [h] at hk; simp at hk

lemma extract_tow_val (m : Message) (summary : List String) (q : Candidate)
    (hq : q ∈ extractSignals m summary) (hk : q.key = "towEtaMin") :
    ∃ ds, towCapture (jsToLower m.text) = some ds ∧
      q = ⟨"towEtaMin", Val.vInt (digitsToNat ds), towLabel ds⟩ := by
  rcases extract_mem m summary q hq with h | ⟨ds, hc, h⟩ | h | h | h | h
  · rw [h] at hk; simp at hk
  · exact ⟨ds, hc, h⟩
  · rw [h] at hk; simp at hk
  · rw [h] at hk; simp at hk
  · rw [h] at hk; simp at hk
  · rw [h] at hk; simp at hk

lemma extract_p7_mem (m : Message) (summary : List String)
    (hc : (summary.any fun s => strIncludes (jsToLower s) "police on scene") = true) :
    (⟨"policePresent", Val.vBool true, "Police present"⟩ : Candidate) ∈
      extractSignals m summary := by
  unfold extractSignals
  dsimp only
  refine List.mem_append.2 (Or.inr ?_)
  rw [if_pos hc]
  simp

lemma jsToLower_sysTow_data (ds : List Char) (hds : ∀ c ∈ ds, isDigitCh c = true) :
    (jsToLower ("New signal detected: " ++ towLabel ds)).data =
      "new signal detected: tow eta ".data ++ (ds ++ ['m']) := by
  show ("New signal detected: " ++ towLabel ds).data.map Char.toLower = _
  rw [String.data_append]
  rw [show (towLabel ds).data = "Tow ETA ".data ++ (ds ++ "m".data) from rfl]
  rw [List.map_append, List.map_append, List.map_append]
  rw [map_toLower_digits ds hds]
  rw [show "New signal detected: ".data.map Char.toLower =
      "new signal detected: ".data from by decide]
  rw [show "Tow ETA ".data.map Char.toLower = "tow eta ".data from by decide]
  rw [show "m".data.map Char.toLower = ['m'] from by decide]
  rw [← List.append_assoc,
    show "new signal detected: ".data ++ "tow eta ".data =
      "new signal detected: tow eta ".data from by decide]

lemma sysTow_no_includes (ds : List Char) (hne : ds ≠ [])
    (hds : ∀ c ∈ ds, isDigitCh c = true) (pat : String)
    (h1 : ∀ c ∈ pat.data, isDigitCh c = false) (h2 : pat.data ≠ [])
    (h3 : includesL "new signal detected: tow eta ".data pat.data = false)
    (h4 : includesL ['m'] pat.data = false) :
    strIncludes (jsToLower ("New signal detected: " ++ towLabel ds)) pat = false := by
  show includesL (jsToLower ("New signal detected: " ++ towLabel ds)).data pat.data = false
  rw [jsToLower_sysTow_data ds hds]
  exact includesL_split pat.data ['m'] h1 h2 h4 _ ds h3 hne hds

lemma towCapture_sysTow (ds : List Char) (hne : ds ≠ [])
    (hds : ∀ c ∈ ds, isDigitCh c = true) :
    towCapture (jsToLower ("New signal detected: " ++ towLabel ds)) = some ds := by
  show towScanL (jsToLower ("New signal detected: " ++ towLabel ds)).data = some ds
  rw [jsToLower_sysTow_data ds hds]
  exact towScanL_sys ds hne hds

lemma extract_sys_police (p : Candidate) (hl : p.label = "Police present")
    (summary : List String) :
    extractSignals (sysMsgOf p) summary =
      (if summary.any (fun s => strIncludes (jsToLower s) "police on scene") then
        [⟨"policePresent", Val.vBool true, "Police present"⟩] else []) := by
  unfold sysMsgOf extractSignals
  rw [hl]
  dsimp only
  rw [show strIncludes (jsToLower ("New signal detected: " ++ "Police present"))
        "police arrived" = false from by decide,
      show strIncludes (jsToLower ("New signal detected: " ++ "Police present"))
        "request immediate removal" = false from by decide,
      show towCapture (jsToLower ("New signal detected: " ++ "Police present")) = none
        from by decide,
      show strIncludes (jsToLower ("New signal detected: " ++ "Police present"))
        "rider anxious" = false from by decide,
      show strIncludes (jsToLower ("New signal detected: " ++ "Police present"))
        "remote assist attempt failed" = false from by decide,
      show strIncludes (jsToLower ("New signal detected: " ++ "Police present"))
        "lane partially blocked" = false from by decide,
      show strIncludes (jsToLower ("New signal detected: " ++ "Police present"))
        "no injuries" = false from by decide]
  simp

lemma extract_sys_remote (p : Candidate) (hl : p.label = "Remote assist failed")
    (summary : List String) :
    extractSignals (sysMsgOf p) summary =
      (if summary.any (fun s => strIncludes (jsToLower s) "police on scene") then
        [⟨"policePresent", Val.vBool true, "Police present"⟩] else []) := by
  unfold sysMsgOf extractSignals
  rw [hl]
  dsimp only
  rw [show strIncludes (jsToLower ("New signal detected: " ++ "Remote assist failed"))
        "police arrived" = false from by decide,
      show strIncludes (jsToLower ("New signal detected: " ++ "Remote assist failed"))
        "request immediate removal" = false from by decide,
      show towCapture (jsToLower ("New signal detected: " ++ "Remote assist failed")) = none
        from by decide,
      show strIncludes (jsToLower ("New signal detected: " ++ "Remote assist failed"))
        "rider anxious" = false from by decide,
      show strIncludes (jsToLower ("New signal detected: " ++ "Remote assist failed"))
        "remote assist attempt failed" = false from by decide,
      show strIncludes (jsToLower ("New signal detected: " ++ "Remote assist failed"))
        "lane partially blocked" = false from by decide,
      show strIncludes (jsToLower ("New signal detected: " ++ "Remote assist failed"))
        "no injuries" = false from by decide]
  simp

lemma extract_sys_lane (p : Candidate) (hl : p.label = "Lane partially blocked")
    (summary : List String) :
    extractSignals (sysMsgOf p) summary =
      (⟨"lanePartiallyBlocked", Val.vBool true, "Lane partially blocked"⟩ ::
        (if summary.any (fun s => strIncludes (jsToLower s) "police on scene") then
          [⟨"policePresent", Val.vBool true, "Police present"⟩] else [])) := by
  unfold sysMsgOf extractSignals
  rw [hl]
  dsimp only
  rw [show strIncludes (jsToLower ("New signal detected: " ++ "Lane partially blocked"))
        "police arrived" = false from by decide,
      show strIncludes (jsToLower ("New signal detected: " ++ "Lane partially blocked"))
        "request immediate removal" = false from by decide,
      show towCapture (jsToLower ("New signal detected: " ++ "Lane partially blocked")) = none
        from by decide,
      show strIncludes (jsToLower ("New signal detected: " ++ "Lane partially blocked"))
        "rider anxious" = false from by decide,
      show strIncludes (jsToLower ("New signal detected: " ++ "Lane partially blocked"))
        "remote assist attempt failed" = false from by decide,
      show strIncludes (jsToLower ("New signal detected: " ++ "Lane partially blocked"))
        "lane partially blocked" = true from by decide,
      show strIncludes (jsToLower ("New signal detected: " ++ "Lane partially blocked"))
        "no injuries" = false from by decide]
  simp

lemma extract_sys_tow (p : Candidate) (ds : List Char) (hl : p.label = towLabel ds)
    (hne : ds ≠ []) (hds : ∀ c ∈ ds, isDigitCh c = true) (summary : List String) :
    extractSignals (sysMsgOf p) summary =
      (⟨"towEtaMin", Val.vInt (digitsToNat ds), towLabel ds⟩ ::
        (if summary.any (fun s => strIncludes (jsToLower s) "police on scene") then
          [⟨"policePresent", Val.vBool true, "Police present"⟩] else [])) := by
  unfold sysMsgOf extractSignals
  rw [hl]
  dsimp only
  rw [sysTow_no_includes ds hne hds "police arrived"
        (by decide) (by decide) (by decide) (by decide),
      sysTow_no_includes ds hne hds "request immediate removal"
        (by decide) (by decide) (by decide) (by decide),
      towCapture_sysTow ds hne hds,
      sysTow_no_includes ds hne hds "rider anxious"
        (by decide) (by decide) (by decide) (by decide),
      sysTow_no_includes ds hne hds "remote assist attempt failed"
        (by decide) (by decide) (by decide) (by decide),
      sysTow_no_includes ds hne hds "lane partially blocked"
        (by decide) (by decide) (by decide) (by decide),
      sysTow_no_includes ds hne hds "no injuries"
        (by decide) (by decide) (by decide) (by decide)]
  simp

/-- Shape of a promoted candidate at the moment its system notification
is processed: its label is one of the four promotable labels, and the
corresponding store slot already holds the promoted value. -/
def shapeInv (p : Candidate) (s : JsStore) : Prop :=
  (p.label = "Police present" ∧ s "policePresent" = Val.vBool true)
  ∨ p.label = "Remote assist failed"
  ∨ (p.label = "Lane partially blocked" ∧ s "lanePartiallyBlocked" = Val.vBool true)
  ∨ (∃ ds, ds ≠ [] ∧ (∀ c ∈ ds, isDigitCh c = true) ∧ p.label = towLabel ds ∧
      s "towEtaMin" = Val.vInt (digitsToNat ds))

/-- If the transcript contains a police-arrived message, the store's
`policePresent` slot is already true. -/
def PoliceInv (msgs : List Message) (s : JsStore) : Prop :=
  (msgs.any fun m2 => strIncludes (jsToLower m2.text) "police arrived") = true →
    s "policePresent" = Val.vBool true

lemma shape_label_no_pa (p : Candidate) (s : JsStore) (h : shapeInv p s) :
    strIncludes (jsToLower ("New signal detected: " ++ p.label)) "police arrived" = false := by
  rcases h with ⟨hl, _⟩ | hl | ⟨hl, _⟩ | ⟨ds, hne, hds, hl, _⟩ <;> rw [hl]
  · decide
  · decide
  · decide
  · exact sysTow_no_includes ds hne hds "police arrived"
      (by decide) (by decide) (by decide) (by decide)

lemma promote_sys_noop (st : AppState) (p : Candidate)
    (hshape : shapeInv p st.signals)
    (hpol : PoliceInv (st.chatMessages ++ [sysMsgOf p]) st.signals) :
    promoteRelevantSignals st.signals
      (extractSignals (sysMsgOf p) (aggregateSummary (st.chatMessages ++ [sysMsgOf p]))) =
      (st.signals, []) := by
  have hfact : ((aggregateSummary (st.chatMessages ++ [sysMsgOf p])).any
      fun s => strIncludes (jsToLower s) "police on scene") = true →
      st.signals "policePresent" = Val.vBool true := by
    intro hc
    apply hpol
    rw [← agg_police]
    exact hc
  rcases hshape with ⟨hl, hs⟩ | hl | ⟨hl, hs⟩ | ⟨ds, hne, hds, hl, hs⟩
  · rw [extract_sys_police p hl]
    by_cases hc : ((aggregateSummary (st.chatMessages ++ [sysMsgOf p])).any
        fun s => strIncludes (jsToLower s) "police on scene") = true
    · rw [if_pos hc]
      apply promote_all_noop
      intro q hq
      rw [show q = (⟨"policePresent", Val.vBool true, "Police present"⟩ : Candidate)
        from by simpa using hq]
      exact Or.inr (hfact hc)
    · rw [if_neg hc]
      exact promote_all_noop [] st.signals (by simp)
  · rw [extract_sys_remote p hl]
    by_cases hc : ((aggregateSummary (st.chatMessages ++ [sysMsgOf p])).any
        fun s => strIncludes (jsToLower s) "police on scene") = true
    · rw [if_pos hc]
      apply promote_all_noop
      intro q hq
      rw [show q = (⟨"policePresent", Val.vBool true, "Police present"⟩ : Candidate)
        from by simpa using hq]
      exact Or.inr (hfact hc)
    · rw [if_neg hc]
      exact promote_all_noop [] st.signals (by simp)
  · rw [extract_sys_lane p hl]
    apply promote_all_noop
    intro q hq
    rcases List.mem_cons.1 hq with h | h
    · rw [h]
      exact Or.inr hs
    · revert h
      by_cases hc : ((aggregateSummary (st.chatMessages ++ [sysMsgOf p])).any
          fun s => strIncludes (jsToLower s) "police on scene") = true
      · rw [if_pos hc]
        intro h
        rw [show q = (⟨"policePresent", Val.vBool true, "Police present"⟩ : Candidate)
          from by simpa using h]
        exact Or.inr (hfact hc)
      · rw [if_neg hc]
        intro h
        exact absurd h (by simp)
  · rw [extract_sys_tow p ds hl hne hds]
    apply promote_all_noop
    intro q hq
    rcases List.mem_cons.1 hq with h | h
    · rw [h]
      exact Or.inr hs
    · revert h
      by_cases hc : ((aggregateSummary (st.chatMessages ++ [sysMsgOf p])).any
          fun s => strIncludes (jsToLower s) "police on scene") = true
      · rw [if_pos hc]
        intro h
        rw [show q = (⟨"policePresent", Val.vBool true, "Police present"⟩ : Candidate)
          from by simpa using h]
        exact Or.inr (hfact hc)
      · rw [if_neg hc]
        intro h
        exact absurd h (by simp)

lemma processMsg_sys_noop (n : Nat) (st : AppState) (p : Candidate)
    (hshape : shapeInv p st.signals)
    (hpol : PoliceInv (st.chatMessages ++ [sysMsgOf p]) st.signals) :
    processMsgF (n + 1) st (sysMsgOf p) =
      some ⟨st.chatMessages ++ [sysMsgOf p], st.signals,
        aggregateSummary (st.chatMessages ++ [sysMsgOf p])⟩ := by
  have hpr := promote_sys_noop st p hshape hpol
  simp only [processMsgF]
  rw [hpr]
  simp only [processListF]

lemma processListF_noop (n : Nat) (ps : List Candidate) : ∀ st : AppState,
    (∀ p ∈ ps, shapeInv p st.signals) → PoliceInv st.chatMessages st.signals →
    (processListF (n + 1) st ps).isSome = true := by
  induction ps with
  | nil =>
    intro st _ _
    simp [processListF]
  | cons p ps ih =>
    intro st hsh hpol
    have hshp := hsh p (List.mem_cons_self _ _)
    have hlab := shape_label_no_pa p st.signals hshp
    have hpol2 : PoliceInv (st.chatMessages ++ [sysMsgOf p]) st.signals := by
      intro hany
      apply hpol
      rw [List.any_append] at hany
      simp only [sysMsgOf, List.any_cons, List.any_nil, Bool.or_false] at hany
      rw [hlab] at hany
      simpa using hany
    have hchild := processMsg_sys_noop n st p hshp hpol2
    simp only [processListF]
    rw [hchild]
    exact ih ⟨st.chatMessages ++ [sysMsgOf p], st.signals,
        aggregateSummary (st.chatMessages ++ [sysMsgOf p])⟩
      (fun q hq => hsh q (List.mem_cons_of_mem p hq)) hpol2

/-- C10: processing one inbound chat message always terminates, even
though every applied candidate emits a system notification that
re-enters the append-aggregate-extract-gate pipeline: the gate only
applies value-changing candidates, so every system notification's own
extraction proposes only values already stored, its gate call returns an
empty applied-list, and the recursion stops — fuel 2 suffices from any
state. -/
theorem C10_chat_pipeline_terminates (st : AppState) (msg : Message) :
    ∃ n, (processMsgF n st msg).isSome = true := by
  refine ⟨2, ?_⟩
  rw [show (2 : Nat) = 1 + 1 from rfl]
  simp only [processMsgF]
  apply processListF_noop 0
  · intro p hp
    dsimp only
    have hpex : p ∈ extractSignals msg (aggregateSummary (st.chatMessages ++ [msg])) :=
      (promote_sub _ st.signals).subset hp
    have hpk : p.key ∈ affects := promote_keys _ st.signals p hp
    rcases extract_mem msg _ p hpex with h | ⟨ds, hcap, h⟩ | h | h | h | h
    · refine Or.inl ⟨by rw [h], ?_⟩
      exact promote_key_val _ st.signals "policePresent" (Val.vBool true) (by decide)
        (fun q hq hqk => extract_police_val msg _ q hq hqk)
        ⟨p, hpex, by rw [h]⟩
    · have hdig := towScanL_digits (jsToLower msg.text).data ds hcap
      refine Or.inr (Or.inr (Or.inr ⟨ds, hdig.1, hdig.2, by rw [h], ?_⟩))
      refine promote_key_val _ st.signals "towEtaMin" (Val.vInt (digitsToNat ds)) (by decide)
        ?_ ⟨p, hpex, by rw [h]⟩
      intro q hq hqk
      obtain ⟨ds2, hcap2, hq2⟩ := extract_tow_val msg _ q hq hqk
      have hds2 : ds2 = ds := by
        rw [hcap] at hcap2
        exact (Option.some.inj hcap2).symm
      rw [hq2, hds2]
    · rw [h] at hpk
      exact absurd hpk (by decide)
    · exact Or.inr (Or.inl (by rw [h]))
    · refine Or.inr (Or.inr (Or.inl ⟨by rw [h], ?_⟩))
      exact promote_key_val _ st.signals "lanePartiallyBlocked" (Val.vBool true) (by decide)
        (fun q hq hqk => extract_lane_val msg _ q hq hqk)
        ⟨p, hpex, by rw [h]⟩
    · rw [h] at hpk
      exact absurd hpk (by decide)
  · dsimp only
    intro hany
    have hcond : ((aggregateSummary (st.chatMessages ++ [msg])).any
        fun s => strIncludes (jsToLower s) "police on scene") = true := by
      rw [agg_police]
      exact hany
    have hmem := extract_p7_mem msg (aggregateSummary (st.chatMessages ++ [msg])) hcond
    exact promote_key_val _ st.signals "policePresent" (Val.vBool true) (by decide)
      (fun q hq hqk => extract_police_val msg _ q hq hqk)
      ⟨_, hmem, rfl⟩
